import Mathlib

/-!
Shallow embedding of the happiness-dashboard script (`app.py`) and proofs about
its filtering-and-aggregation pipeline.

Modelling conventions:
* a dataframe cell that pandas would hold as `NaN` (missing / unparsable) is an
  `Option ℚ` with value `none`; real-valued cells are rationals;
* `df.groupby(k, sort=True)` produces one group per distinct key, keys in
  ascending order; `mean()` skips missing values (`skipna`), and a group whose
  values are all missing stays in the output with value `none` (pandas keeps
  the group and reports `NaN`);
* `sort_values(col)` is modelled as a stable sort with missing values placed
  last (`na_position='last'`);
* `st.stop()` ends the script run: it is modelled by the driver `runScript`
  which leaves every later tab's result empty.
-/

namespace HappinessApp

/-- One row of the loaded `Happiness.csv` table (§3 Record). Numeric cells are
`Option ℚ`: `none` models a missing or unparsable value (pandas `NaN`). -/
structure Row where
  country : String
  year : Int
  lifeEval : Option ℚ
  gdp : Option ℚ
  socialSupport : Option ℚ
  healthyLife : Option ℚ
  freedom : Option ℚ
  generosity : Option ℚ
  corruption : Option ℚ
deriving DecidableEq

/-- The loaded dataframe: the column names actually present in the file,
plus the parsed rows. The column list is what the script's
`... not in df_f.columns` checks consult. -/
structure Dataset where
  cols : List String
  rows : List Row
deriving DecidableEq

/-- The six `Explained by:` factor columns. -/
inductive Factor
  | gdp
  | socialSupport
  | healthyLife
  | freedom
  | generosity
  | corruption
deriving DecidableEq

/-- Raw CSV column name of a factor. -/
def Factor.colName : Factor → String
  | .gdp => "Explained by: Log GDP per capita"
  | .socialSupport => "Explained by: Social support"
  | .healthyLife => "Explained by: Healthy life expectancy"
  | .freedom => "Explained by: Freedom to make life choices"
  | .generosity => "Explained by: Generosity"
  | .corruption => "Explained by: Perceptions of corruption"

/-- Factor cell of a row. -/
def Row.factorVal (r : Row) : Factor → Option ℚ
  | .gdp => r.gdp
  | .socialSupport => r.socialSupport
  | .healthyLife => r.healthyLife
  | .freedom => r.freedom
  | .generosity => r.generosity
  | .corruption => r.corruption

/-- Non-missing values of a column, in row order. -/
def somes : List (Option ℚ) → List ℚ
  | [] => []
  | none :: rest => somes rest
  | some x :: rest => x :: somes rest

/-- pandas `mean()` with default `skipna=True`: the arithmetic mean of the
non-missing values, `none` when every value is missing. -/
def optMean (vals : List (Option ℚ)) : Option ℚ :=
  let xs := somes vals
  if xs.isEmpty then none else some (xs.sum / xs.length)

/-- NaN-propagating subtraction of two cells. -/
def osub : Option ℚ → Option ℚ → Option ℚ
  | some a, some b => some (a - b)
  | _, _ => none

/-- Distinct elements of a list (the key set of a `groupby`, or
`Series.unique()`); only its membership and length are ever relied upon. -/
def uniq {α : Type} [DecidableEq α] : List α → List α
  | [] => []
  | a :: as => if a ∈ uniq as then uniq as else a :: uniq as

/-- Distinct values of a key column in ascending order: the group keys
produced by `df.groupby(key)` with its default `sort=True`. -/
def sortedKeys {κ : Type} [DecidableEq κ] [LinearOrder κ] (l : List κ) : List κ :=
  List.insertionSort (· ≤ ·) (uniq l)

/-- `df.groupby(key)[val].mean()`: one output row per distinct key (ascending),
value = missing-skipping mean over that group's rows. A group all of whose
values are missing stays in the output, with value `none`. -/
def groupMean {κ : Type} [DecidableEq κ] [LinearOrder κ] (key : Row → κ)
    (val : Row → Option ℚ) (df : List Row) : List (κ × Option ℚ) :=
  (sortedKeys (df.map key)).map fun k =>
    (k, optMean ((df.filter fun r => decide (key r = k)).map val))

/-- Row order of `sort_values(col, ascending=False)`: larger values first,
missing values last (`na_position='last'`). -/
def descOpt : Option ℚ → Option ℚ → Prop
  | some x, some y => y ≤ x
  | some _, none => True
  | none, some _ => False
  | none, none => True

/-- Row order of `sort_values(col, ascending=True)`: smaller values first,
missing values still last. -/
def ascOpt : Option ℚ → Option ℚ → Prop
  | some x, some y => x ≤ y
  | some _, none => True
  | none, some _ => False
  | none, none => True

instance : DecidableRel descOpt := fun a b =>
  match a, b with
  | some x, some y => inferInstanceAs (Decidable (y ≤ x))
  | some _, none => inferInstanceAs (Decidable True)
  | none, some _ => inferInstanceAs (Decidable False)
  | none, none => inferInstanceAs (Decidable True)

instance : DecidableRel ascOpt := fun a b =>
  match a, b with
  | some x, some y => inferInstanceAs (Decidable (x ≤ y))
  | some _, none => inferInstanceAs (Decidable True)
  | none, some _ => inferInstanceAs (Decidable False)
  | none, none => inferInstanceAs (Decidable True)

/-- Stable descending sort of a table by an optional-value column. -/
def sortByDesc {α : Type} (key : α → Option ℚ) (l : List α) : List α :=
  List.insertionSort (fun a b => descOpt (key a) (key b)) l

/-- Stable ascending sort of a table by an optional-value column. -/
def sortByAsc {α : Type} (key : α → Option ℚ) (l : List α) : List α :=
  List.insertionSort (fun a b => ascOpt (key a) (key b)) l

/-- Stable descending sort of a table by a required-value column. -/
def sortByDescQ {α : Type} (key : α → ℚ) (l : List α) : List α :=
  List.insertionSort (fun a b => key b ≤ key a) l

/-! ## Sidebar: filter stage and country cap -/

/-- Line 25: `df_f = df[(df["Year"] >= year_min) & (df["Year"] <= year_max)].copy()`.
The Working Subset every analysis reads. Note that only the year predicate is
applied here; the sidebar country selection is not. -/
def df_f (df : List Row) (year_min year_max : Int) : List Row :=
  df.filter fun r => decide (year_min ≤ r.year) && decide (r.year ≤ year_max)

/-- Lines 42–44: if the selection exceeds the slider cap, warn in the sidebar
and keep only the first `max_countries` entries. Returns the effective
selection and whether the truncation warning was shown. -/
def applyCap (selected_countries : List String) (max_countries : Nat) :
    List String × Bool :=
  if selected_countries.length > max_countries then
    (selected_countries.take max_countries, true)
  else (selected_countries, false)

/-- Working Subset as §3 of the specification words it: the year-range filter
plus, when the allow-list is non-empty, the country allow-list. Modelled from
the spec for comparison with the script's `df_f`. -/
def workingSubsetSpec (df : List Row) (year_min year_max : Int)
    (allow : List String) : List Row :=
  df.filter fun r =>
    decide (year_min ≤ r.year) && decide (r.year ≤ year_max) &&
      (allow.isEmpty || decide (r.country ∈ allow))

/-! ## P1 (tab 1): trend over time -/

/-- Lines 62–67: global mean life evaluation per year, labelled as the series
"Global average". -/
def global_series (dff : List Row) : List (Int × String × Option ℚ) :=
  (groupMean Row.year Row.lifeEval dff).map fun p => (p.1, "Global average", p.2)

/-- Lines 70–74: raw `(Year, country, life_eval)` rows of the selected
countries, in row order. -/
def country_series (dff : List Row) (selected_countries : List String) :
    List (Int × String × Option ℚ) :=
  (dff.filter fun r => decide (r.country ∈ selected_countries)).map fun r =>
    (r.year, r.country, r.lifeEval)

/-- Lines 69–77: the P1 chart table — the global series, followed by the
per-country series when a selection exists. -/
def plot_df (dff : List Row) (selected_countries : List String) :
    List (Int × String × Option ℚ) :=
  if selected_countries.isEmpty then global_series dff
  else global_series dff ++ country_series dff selected_countries

/-! ## P2 (tab 2): top/bottom ranking -/

/-- Lines 102–107: mean life evaluation per country, sorted descending.
The groupby step has already ordered the countries alphabetically, so the
stable value sort breaks ties in that alphabetical order. -/
def country_avg (dff : List Row) : List (String × Option ℚ) :=
  sortByDesc Prod.snd (groupMean Row.country Row.lifeEval dff)

/-- Line 109: `country_avg.head(top_n)`. -/
def top_countries (dff : List Row) (top_n : Nat) : List (String × Option ℚ) :=
  (country_avg dff).take top_n

/-- Line 110: `country_avg.tail(top_n)`. -/
def bottom_countries (dff : List Row) (top_n : Nat) : List (String × Option ℚ) :=
  (country_avg dff).drop ((country_avg dff).length - top_n)

/-- Lines 111–113: both ranked lists, tagged with their group label and
concatenated without deduplication. -/
def plot_rank (dff : List Row) (top_n : Nat) : List (String × Option ℚ × String) :=
  ((top_countries dff top_n).map fun p => (p.1, p.2, "Top countries")) ++
    ((bottom_countries dff top_n).map fun p => (p.1, p.2, "Bottom countries"))

/-! ## P3 (tab 3): change 2019 → 2024 -/

/-- Line 132: the set of years present in the filtered subset. -/
def years_available (dff : List Row) : List Int :=
  uniq (dff.map Row.year)

/-- Line 137: countries and life evaluations of the 2019 rows. -/
def df_2019 (dff : List Row) : List (String × Option ℚ) :=
  (dff.filter fun r => decide (r.year = 2019)).map fun r => (r.country, r.lifeEval)

/-- Line 138: countries and life evaluations of the 2024 rows. -/
def df_2024 (dff : List Row) : List (String × Option ℚ) :=
  (dff.filter fun r => decide (r.year = 2024)).map fun r => (r.country, r.lifeEval)

/-- Line 140: `df_2019.merge(df_2024, on="Country name")` — an inner join.
Left-frame row order; each left row is matched with every right row carrying
the same key, and keys present on only one side are dropped. -/
def mergeOnCountry (l r : List (String × Option ℚ)) :
    List (String × Option ℚ × Option ℚ) :=
  l.flatMap fun p => (r.filter fun q => decide (q.1 = p.1)).map fun q => (p.1, p.2, q.2)

/-- One row of the joined change table. -/
structure ChangeRow where
  country : String
  v2019 : Option ℚ
  v2024 : Option ℚ
  change : Option ℚ
deriving DecidableEq

/-- Lines 140–150: the joined table with its `change` column,
`change = value(2024) − value(2019)`. -/
def change_df (dff : List Row) : List ChangeRow :=
  (mergeOnCountry (df_2019 dff) (df_2024 dff)).map fun t =>
    ⟨t.1, t.2.1, t.2.2, osub t.2.2 t.2.1⟩

/-- Line 152: top `change_n` increases. -/
def inc (dff : List Row) (change_n : Nat) : List ChangeRow :=
  (sortByDesc ChangeRow.change (change_df dff)).take change_n

/-- Line 153: top `change_n` decreases. -/
def dec (dff : List Row) (change_n : Nat) : List ChangeRow :=
  (sortByAsc ChangeRow.change (change_df dff)).take change_n

/-- Outcome of tab 3. The first two constructors correspond to the
`st.warning` + `st.stop()` exits at lines 133–135 and 143–145. -/
inductive P3Result
  | unavailableYears
  | emptyJoin
  | ok (increases decreases : List ChangeRow)
deriving DecidableEq

/-- Lines 128–154: P3. Requires both boundary years in the filtered range,
then joins, and emits the top increases and decreases. -/
def p3 (dff : List Row) (change_n : Nat) : P3Result :=
  if 2019 ∈ years_available dff ∧ 2024 ∈ years_available dff then
    if (change_df dff).isEmpty then .emptyJoin
    else .ok (inc dff change_n) (dec dff change_n)
  else .unavailableYears

/-! ## Tab 4: shared country-level table, P4 / P6 / P5 -/

/-- Lines 190–199: the columns tab 4 requires. -/
def required_cols : List String :=
  ["Country name", "Life evaluation (3-year average)",
   "Explained by: Log GDP per capita", "Explained by: Social support",
   "Explained by: Healthy life expectancy",
   "Explained by: Freedom to make life choices", "Explained by: Generosity",
   "Explained by: Perceptions of corruption"]

/-- One row of the country-level mean table built in tab 4. -/
structure CRow where
  country : String
  life_eval : Option ℚ
  gdp : Option ℚ
  social_support : Option ℚ
  healthy_life : Option ℚ
  freedom : Option ℚ
  generosity : Option ℚ
  corruption : Option ℚ
deriving DecidableEq

/-- Factor cell of a country-level row. -/
def CRow.factorVal (r : CRow) : Factor → Option ℚ
  | .gdp => r.gdp
  | .socialSupport => r.social_support
  | .healthyLife => r.healthy_life
  | .freedom => r.freedom
  | .generosity => r.generosity
  | .corruption => r.corruption

/-- Lines 207–227 (one row): the per-country means of every numeric column
for one country. -/
def countryMeans (dff : List Row) (c : String) : CRow :=
  CRow.mk c
    (optMean ((dff.filter fun r => decide (r.country = c)).map Row.lifeEval))
    (optMean ((dff.filter fun r => decide (r.country = c)).map Row.gdp))
    (optMean ((dff.filter fun r => decide (r.country = c)).map Row.socialSupport))
    (optMean ((dff.filter fun r => decide (r.country = c)).map Row.healthyLife))
    (optMean ((dff.filter fun r => decide (r.country = c)).map Row.freedom))
    (optMean ((dff.filter fun r => decide (r.country = c)).map Row.generosity))
    (optMean ((dff.filter fun r => decide (r.country = c)).map Row.corruption))

/-- Lines 207–234: per-country means of every numeric column (the
`pd.to_numeric` coercion is the identity here, cells being already numeric or
missing), then `dropna(subset=["life_eval"])`: countries whose mean life
evaluation is missing are removed, whatever their factor cells hold. -/
def country_full (dff : List Row) : List CRow :=
  ((sortedKeys (dff.map Row.country)).map (countryMeans dff)).filter fun r =>
    r.life_eval.isSome

/-- Line 244: the P4 scatter table, `country_full.dropna(subset=["gdp"])`. -/
def p4_rows (cf : List CRow) : List CRow :=
  cf.filter fun r => r.gdp.isSome

/-- Lines 258–263: `country_full.melt(...)` over the two chosen factors — all
GDP rows first, then all social-support rows, country order preserved within
each block. Entries are `(country, life_eval, factor, factor value)`. -/
def long_df (cf : List CRow) : List (String × Option ℚ × Factor × Option ℚ) :=
  [Factor.gdp, Factor.socialSupport].flatMap fun f =>
    cf.map fun r => (r.country, r.life_eval, f, r.factorVal f)

/-- Line 271: the P6 chart table, `long_df.dropna(subset=["Factor value"])`. -/
def fig6_data (cf : List CRow) : List (String × Option ℚ × Factor × Option ℚ) :=
  (long_df cf).filter fun t => t.2.2.2.isSome

/-- Line 286: the factors P5 ranks. -/
def factors_cols : List Factor :=
  [.gdp, .socialSupport, .healthyLife, .freedom, .generosity, .corruption]

/-- Line 290: `country_full[[f, "life_eval"]].dropna()` — the paired
non-missing `(factor value, life_eval)` observations of one factor. -/
def pairedObs (cf : List CRow) (f : Factor) : List (ℚ × ℚ) :=
  cf.filterMap fun r =>
    match r.factorVal f, r.life_eval with
    | some a, some b => some (a, b)
    | _, _ => none

/-- Lines 288–295: one row per factor; fewer than 3 paired observations yield
`None` instead of a coefficient. The numeric Pearson coefficient itself
involves a square root and has no exact executable counterpart, so the
analyses are parametrized by the coefficient function `corrFn` (`none` models
a NaN coefficient, e.g. a zero-variance column); every property proved below
holds for all `corrFn`. -/
def corr_rows (corrFn : List (ℚ × ℚ) → Option ℚ) (cf : List CRow) :
    List (Factor × Option ℚ) :=
  factors_cols.map fun f =>
    (f, if (pairedObs cf f).length < 3 then none else corrFn (pairedObs cf f))

/-- Line 297: `pd.DataFrame(corr_rows).dropna().sort_values(desc)` — the P5
output table: factors with a defined coefficient, best first. -/
def corr_df (corrFn : List (ℚ × ℚ) → Option ℚ) (cf : List CRow) :
    List (Factor × ℚ) :=
  sortByDescQ Prod.snd
    ((corr_rows corrFn cf).filterMap fun p => p.2.map fun v => (p.1, v))

/-- Outcome of tab 4. The first two constructors correspond to the
`st.error`/`st.warning` + `st.stop()` exits at lines 201–204 and 236–238. -/
inductive Tab4Result
  | missingCols (missing : List String)
  | noData
  | ok (p4 : List CRow) (p6 : List (String × Option ℚ × Factor × Option ℚ))
      (p5 : List (Factor × ℚ))
deriving DecidableEq

/-- Lines 187–317: tab 4 — column check, shared `country_full` table,
no-data check, then P4, P6 and P5 off the shared table. -/
def tab4 (cols : List String) (dff : List Row)
    (corrFn : List (ℚ × ℚ) → Option ℚ) : Tab4Result :=
  let missing := required_cols.filter fun c => decide (¬ c ∈ cols)
  if missing.isEmpty then
    let cf := country_full dff
    if cf.isEmpty then .noData
    else .ok (p4_rows cf) (fig6_data cf) (corr_df corrFn cf)
  else .missingCols missing

/-! ## Tab 5: P7 / P8 / P9 -/

/-- Lines 331–345: country-level `(country, life_eval, gdp)` means with both
cells present (`dropna(subset=["life_eval", "gdp"])`). -/
def cl7 (dff : List Row) : List (String × ℚ × ℚ) :=
  (sortedKeys (dff.map Row.country)).filterMap fun c =>
    let g := dff.filter fun r => decide (r.country = c)
    match optMean (g.map Row.lifeEval), optMean (g.map Row.gdp) with
    | some l, some gd => some (c, l, gd)
    | _, _ => none

/-- pandas `Series.median()` over a non-empty list: middle order statistic,
or the mean of the two middle ones for an even count. Only applied to
non-empty lists in the script; the empty case returns the junk value 0. -/
def median (xs : List ℚ) : ℚ :=
  let s := List.insertionSort (· ≤ ·) xs
  if s.length % 2 = 1 then s.getD (s.length / 2) 0
  else (s.getD (s.length / 2 - 1) 0 + s.getD (s.length / 2) 0) / 2

/-- Lines 353–357: countries strictly below the GDP median and strictly above
the life-evaluation median, sorted by life evaluation descending. -/
def high_life_low_gdp (cl : List (String × ℚ × ℚ)) (gdp_median life_median : ℚ) :
    List (String × ℚ × ℚ) :=
  sortByDescQ (fun t => t.2.1)
    (cl.filter fun t => decide (t.2.2 < gdp_median) && decide (life_median < t.2.1))

/-- Outcome of P7. `noData` is the warning at line 348, `emptyQuadrant` the
info message at line 360; neither stops the script. -/
inductive P7Result
  | noData
  | emptyQuadrant
  | ok (rows : List (String × ℚ × ℚ))
deriving DecidableEq

/-- Lines 328–371: P7 — the high-life/low-GDP quadrant, with its two
distinguishable empty states. -/
def p7 (dff : List Row) : P7Result :=
  let cl := cl7 dff
  if cl.isEmpty then .noData
  else
    let q := high_life_low_gdp cl (median (cl.map fun t => t.2.2))
      (median (cl.map fun t => t.2.1))
    if q.isEmpty then .emptyQuadrant else .ok q

/-- Lines 380–389: the columns P8 requires — the same literals as tab 4's
`required_cols`. -/
def needed : List String := required_cols

/-- Lines 394–419: the country-level table P8 rebuilds — construction
identical to tab 4's `country_full`. -/
def cl8 (dff : List Row) : List CRow := country_full dff

/-- Lines 425–427: median split of the life-evaluation means; the boundary
value goes to the High group. -/
def lifeGroup (life_median x : ℚ) : String :=
  if life_median ≤ x then "High life evaluation" else "Low life evaluation"

/-- Group label of a country-level row (its `life_eval` is `some` for every
row of the dropna-filtered `cl8`; `getD` only discharges the option). -/
def rowGroup (life_median : ℚ) (r : CRow) : String :=
  lifeGroup life_median (r.life_eval.getD 0)

/-- Lines 429–439: per-group factor means, melted long — for each factor (in
column order), one row per group (groups in the ascending key order of the
groupby). Entries are `(group, factor, mean factor value)`. -/
def long_group (cl : List CRow) (life_median : ℚ) :
    List (String × Factor × Option ℚ) :=
  factors_cols.flatMap fun f =>
    (sortedKeys (cl.map (rowGroup life_median))).map fun gp =>
      (gp, f, optMean ((cl.filter fun r => decide (rowGroup life_median r = gp)).map
        fun r => r.factorVal f))

/-- Outcome of P8. `missingCols` is the warning at line 392 and `noData` the
warning at line 422; both recover locally — no `st.stop()` in this tab. -/
inductive P8Result
  | missingCols (missing : List String)
  | noData
  | ok (rows : List (String × Factor × Option ℚ))
deriving DecidableEq

/-- Lines 378–460: P8 — column check, rebuilt country table, median split,
per-group factor profile. -/
def p8 (cols : List String) (dff : List Row) : P8Result :=
  let missing := needed.filter fun c => decide (¬ c ∈ cols)
  if missing.isEmpty then
    let cl := cl8 dff
    if cl.isEmpty then .noData
    else .ok (long_group cl (median (cl.map fun r => r.life_eval.getD 0)))
  else .missingCols missing

/-- Lines 469–476: the factor columns P9 plots. -/
def factors : List String := factors_cols.map Factor.colName

/-- Lines 481–482 (one cell): global mean of one factor over one year. -/
def yearly_mean (dff : List Row) (f : Factor) (y : Int) : Option ℚ :=
  optMean ((dff.filter fun r => decide (r.year = y)).map fun r => r.factorVal f)

/-- Lines 481–482: `groupby("Year")[factors].mean()` melted long — for each
factor (in column order), one row per year (ascending). A year all of whose
cells for a factor are missing is kept, with value `none`. -/
def long_yearly (dff : List Row) : List (Int × Factor × Option ℚ) :=
  factors_cols.flatMap fun f =>
    (sortedKeys (dff.map Row.year)).map fun y => (y, f, yearly_mean dff f y)

/-- Outcome of P9. `missingCols` is the warning at line 479; it recovers
locally — no `st.stop()`. -/
inductive P9Result
  | missingCols (missing : List String)
  | ok (rows : List (Int × Factor × Option ℚ))
deriving DecidableEq

/-- Lines 467–503: P9 — column check, then the factor evolution table. -/
def p9 (cols : List String) (dff : List Row) : P9Result :=
  let missing_f := factors.filter fun c => decide (¬ c ∈ cols)
  if missing_f.isEmpty then .ok (long_yearly dff) else .missingCols missing_f

/-- Results of the three analyses of tab 5, computed in source order; none of
them stops the script. -/
structure Tab5Out where
  p7 : P7Result
  p8 : P8Result
  p9 : P9Result
deriving DecidableEq

/-- Lines 322–503: tab 5 runs P7, P8 and P9 in sequence. -/
def tab5 (cols : List String) (dff : List Row) : Tab5Out :=
  ⟨p7 dff, p8 cols dff, p9 cols dff⟩

/-! ## Tab 6: map -/

/-- Lines 509–516: per-country mean life evaluation, missing means dropped. -/
def map_df (dff : List Row) : List (String × ℚ) :=
  (groupMean Row.country Row.lifeEval dff).filterMap fun p =>
    p.2.map fun v => (p.1, v)

/-- Outcome of tab 6. `noData` is the warning + `st.stop()` at lines 518–520. -/
inductive MapResult
  | noData
  | ok (rows : List (String × ℚ))
deriving DecidableEq

/-- Lines 505–552: the choropleth table. -/
def tab6 (dff : List Row) : MapResult :=
  if (map_df dff).isEmpty then .noData else .ok (map_df dff)

/-! ## Whole-script run -/

/-- Whether tab 3 reaches an `st.stop()`. -/
def P3Result.stops : P3Result → Bool
  | .ok _ _ => false
  | _ => true

/-- Whether tab 4 reaches an `st.stop()`. -/
def Tab4Result.stops : Tab4Result → Bool
  | .ok _ _ _ => false
  | _ => true

/-- Results of one script run; `none` for a tab the run never reached because
an earlier tab called `st.stop()`. -/
structure RunOut where
  p1 : Option (List (Int × String × Option ℚ))
  p2 : Option (List (String × Option ℚ × String))
  p3 : Option P3Result
  t4 : Option Tab4Result
  t5 : Option Tab5Out
  t6 : Option MapResult

/-- One full run of the script for one filter setting. Streamlit executes the
tab blocks sequentially; `st.stop()` inside one block terminates the whole
run, so every later tab keeps `none`. -/
def runScript (ds : Dataset) (year_min year_max : Int)
    (selected_countries : List String) (top_n change_n max_countries : Nat)
    (corrFn : List (ℚ × ℚ) → Option ℚ) : RunOut :=
  let dff := df_f ds.rows year_min year_max
  let sel := (applyCap selected_countries max_countries).1
  let r1 := plot_df dff sel
  let r2 := plot_rank dff top_n
  let r3 := p3 dff change_n
  if r3.stops then ⟨some r1, some r2, some r3, none, none, none⟩
  else
    let r4 := tab4 ds.cols dff corrFn
    if r4.stops then ⟨some r1, some r2, some r3, some r4, none, none⟩
    else ⟨some r1, some r2, some r3, some r4, some (tab5 ds.cols dff),
      some (tab6 dff)⟩

/-! ## Concrete inputs used in the theorems below -/

/-- Row with the given country, year, life evaluation and GDP cells; the
other factor cells are missing. -/
def mkRow (c : String) (y : Int) (le g : Option ℚ) : Row :=
  ⟨c, y, le, g, none, none, none, none, none⟩

/-- Header of the CSV file (§6): every required column is present. -/
def all_cols : List String := "Year" :: required_cols

/-- Dataset whose only row is for year 2019, so the 2024 boundary year is
absent from every filtered range. -/
def exOnly2019 : Dataset := ⟨all_cols, [mkRow "A" 2019 (some 5) none]⟩

/-- Two countries in range; allow-list selections will pick only "A". -/
def exTwoCountries : List Row :=
  [mkRow "A" 2019 (some 5) none, mkRow "B" 2019 (some 6) none]

/-- Country A has both boundary years, country B only 2019. -/
def exAB : List Row :=
  [mkRow "A" 2019 (some 3) none, mkRow "A" 2024 (some 4) none,
   mkRow "B" 2019 (some 2) none]

/-- The end-to-end example dataset of §8: Finland and Chad at both boundary
years. -/
def exFC : List Row :=
  [mkRow "Finland" 2019 (some (78/10)) none, mkRow "Finland" 2024 (some (79/10)) none,
   mkRow "Chad" 2019 (some (35/10)) none, mkRow "Chad" 2024 (some (34/10)) none]

/-- Two countries with equal means whose original row order ("B" first) is
the reverse of their alphabetical order. -/
def exTie : List Row :=
  [mkRow "B" 2019 (some 5) none, mkRow "A" 2019 (some 5) none]

/-- A second tied pair, "D" before "C". -/
def exTie2 : List Row :=
  [mkRow "D" 2019 (some 5) none, mkRow "C" 2019 (some 5) none]

/-- Country A's only life-evaluation cell is missing; country B's is not. -/
def exAllMissing : List Row :=
  [mkRow "A" 2019 none none, mkRow "B" 2019 (some 5) none]

/-- Country-level table with exactly two paired (gdp, life_eval)
observations and none for every other factor. -/
def exCf : List CRow :=
  [⟨"A", some 1, some 1, none, none, none, none, none⟩,
   ⟨"B", some 2, some 2, none, none, none, none, none⟩]

/-- One country whose life evaluation is missing even though its GDP factor
is present. -/
def exLifeMissing : List Row := [mkRow "A" 2019 none (some 1)]

/-- Dataset whose rows cover both boundary years (so P3 succeeds) but whose
file carries only the Year column, so tab 4's required-columns check fires. -/
def exMissingCols : Dataset :=
  ⟨["Year"], [mkRow "A" 2019 (some 1) none, mkRow "A" 2024 (some 2) none]⟩

/-! ## Helper lemmas -/

theorem mem_uniq {α : Type} [DecidableEq α] {l : List α} : ∀ {a : α},
    a ∈ uniq l ↔ a ∈ l := by
  induction l with
  | nil => intro a; simp [uniq]
  | cons b bs ih =>
    intro a
    rw [uniq]
    by_cases h : b ∈ uniq bs
    · rw [if_pos h, ih]
      have hb : b ∈ bs := ih.mp h
      simp only [List.mem_cons]
      constructor
      · exact Or.inr
      · rintro (rfl | hm)
        · exact hb
        · exact hm
    · rw [if_neg h]
      simp [List.mem_cons, ih]

theorem mem_sortedKeys {κ : Type} [DecidableEq κ] [LinearOrder κ] {a : κ}
    {l : List κ} : a ∈ sortedKeys l ↔ a ∈ l :=
  ((List.perm_insertionSort _ _).mem_iff).trans mem_uniq

theorem length_sortedKeys {κ : Type} [DecidableEq κ] [LinearOrder κ] (l : List κ) :
    (sortedKeys l).length = (uniq l).length :=
  List.length_insertionSort _ _

theorem mem_map_fst_groupMean {κ : Type} [DecidableEq κ] [LinearOrder κ] {key : Row → κ}
    {val : Row → Option ℚ} {df : List Row} {k : κ} :
    k ∈ (groupMean key val df).map Prod.fst ↔ k ∈ df.map key := by
  constructor
  · intro h
    obtain ⟨p, hp, hpk⟩ := List.mem_map.mp h
    obtain ⟨k', hk', hk⟩ := List.mem_map.mp hp
    subst hpk
    rw [← hk]
    exact mem_sortedKeys.mp hk'
  · intro h
    refine List.mem_map.mpr ⟨(k, optMean ((df.filter fun r =>
      decide (key r = k)).map val)), ?_, rfl⟩
    exact List.mem_map.mpr ⟨k, mem_sortedKeys.mpr h, rfl⟩

theorem snd_of_mem_groupMean {κ : Type} [DecidableEq κ] [LinearOrder κ] {key : Row → κ}
    {val : Row → Option ℚ} {df : List Row} {k : κ} {v : Option ℚ}
    (h : (k, v) ∈ groupMean key val df) :
    v = optMean ((df.filter fun r => decide (key r = k)).map val) := by
  obtain ⟨k', _, hk⟩ := List.mem_map.mp h
  have h1 : k' = k := congrArg Prod.fst hk
  have h2 : optMean ((df.filter fun r => decide (key r = k')).map val) = v :=
    congrArg Prod.snd hk
  rw [← h2, h1]

theorem country_avg_perm (dff : List Row) :
    (country_avg dff).Perm (groupMean Row.country Row.lifeEval dff) :=
  List.perm_insertionSort _ _

theorem mem_map_fst_country_avg {dff : List Row} {c : String} :
    c ∈ (country_avg dff).map Prod.fst ↔ c ∈ dff.map Row.country :=
  (((country_avg_perm dff).map Prod.fst).mem_iff).trans mem_map_fst_groupMean

theorem snd_of_mem_country_avg {dff : List Row} {c : String} {v : Option ℚ}
    (h : (c, v) ∈ country_avg dff) :
    v = optMean ((dff.filter fun r => decide (r.country = c)).map Row.lifeEval) :=
  snd_of_mem_groupMean ((country_avg_perm dff).mem_iff.mp h)

theorem mem_mergeOnCountry {l r : List (String × Option ℚ)}
    {t : String × Option ℚ × Option ℚ} :
    t ∈ mergeOnCountry l r ↔ ((t.1, t.2.1) ∈ l ∧ (t.1, t.2.2) ∈ r) := by
  constructor
  · intro h
    obtain ⟨p, hp, hmap⟩ := List.mem_flatMap.mp h
    obtain ⟨q, hq, hqt⟩ := List.mem_map.mp hmap
    obtain ⟨hqr, hqp⟩ := List.mem_filter.mp hq
    rw [decide_eq_true_eq] at hqp
    subst hqt
    exact ⟨hp, by rw [← hqp]; exact hqr⟩
  · rintro ⟨h1, h2⟩
    refine List.mem_flatMap.mpr ⟨(t.1, t.2.1), h1, ?_⟩
    refine List.mem_map.mpr ⟨(t.1, t.2.2), ?_, rfl⟩
    exact List.mem_filter.mpr ⟨h2, by simp⟩

theorem mem_change_df {dff : List Row} {e : ChangeRow} :
    e ∈ change_df dff ↔
      ((e.country, e.v2019) ∈ df_2019 dff ∧ (e.country, e.v2024) ∈ df_2024 dff ∧
        e.change = osub e.v2024 e.v2019) := by
  constructor
  · intro h
    obtain ⟨t, ht, hte⟩ := List.mem_map.mp h
    obtain ⟨h1, h2⟩ := mem_mergeOnCountry.mp ht
    subst hte
    exact ⟨h1, h2, rfl⟩
  · rintro ⟨h1, h2, h3⟩
    refine List.mem_map.mpr ⟨(e.country, e.v2019, e.v2024), ?_, ?_⟩
    · exact mem_mergeOnCountry.mpr ⟨h1, h2⟩
    · cases e
      simp_all

theorem descOpt_total (a b : Option ℚ) : descOpt a b ∨ descOpt b a := by
  cases a <;> cases b <;> simp [descOpt] <;> exact le_total _ _

theorem descOpt_trans (a b c : Option ℚ) (h1 : descOpt a b) (h2 : descOpt b c) :
    descOpt a c := by
  cases a <;> cases b <;> cases c <;> simp_all [descOpt] <;> exact le_trans h2 h1

/-! ## Claims -/

/-- C3: for every dataset and year pair, the Working Subset `df_f` contains
exactly the rows whose year lies in the inclusive range `[year_min, year_max]`
and no others; when no row matches, the result is the empty table, not an
error. -/
theorem C3_filter_correct :
    (∀ (df : List Row) (ymin ymax : Int) (r : Row),
        r ∈ df_f df ymin ymax ↔ (r ∈ df ∧ ymin ≤ r.year ∧ r.year ≤ ymax)) ∧
    (∀ (df : List Row) (ymin ymax : Int),
        df_f df ymin ymax = [] ↔ ∀ r ∈ df, ¬(ymin ≤ r.year ∧ r.year ≤ ymax)) := by
  constructor
  · intro df ymin ymax r
    simp [df_f, List.mem_filter, and_assoc]
  · intro df ymin ymax
    simp [df_f, List.filter_eq_nil_iff]

/-- Witness for C3 at concrete inputs: a row with year 2020 is kept by the
range 2019–2024, and the range 2025–2026 yields the empty subset. -/
theorem C3_filter_correct_witness :
    (mkRow "A" 2020 none none ∈ df_f [mkRow "A" 2020 none none] 2019 2024) ∧
      df_f [mkRow "A" 2020 none none] 2025 2026 = [] := by
  constructor
  · exact (C3_filter_correct.1 [mkRow "A" 2020 none none] 2019 2024
      (mkRow "A" 2020 none none)).mpr
      ⟨List.mem_singleton.mpr rfl, by norm_num [mkRow], by norm_num [mkRow]⟩
  · exact (C3_filter_correct.2 [mkRow "A" 2020 none none] 2025 2026).mpr
      (by intro r hr; rw [List.mem_singleton] at hr; subst hr; norm_num [mkRow])

/-- C4: a country selection longer than the cap is truncated to exactly the
first `cap` entries in their original order, and the truncation raises the
sidebar warning flag (the run continues; there is no error state). -/
theorem C4_country_cap (sel : List String) (cap : Nat) (h : cap < sel.length) :
    (applyCap sel cap).1 = sel.take cap ∧ (applyCap sel cap).1.length = cap ∧
      (applyCap sel cap).2 = true := by
  rw [applyCap, if_pos h]
  refine ⟨rfl, ?_, rfl⟩
  rw [List.length_take]
  omega

/-- Witness for C4: a three-country selection under cap 2. -/
theorem C4_country_cap_witness :
    (applyCap ["a", "b", "c"] 2).1 = ["a", "b"] ∧
      (applyCap ["a", "b", "c"] 2).1.length = 2 ∧
      (applyCap ["a", "b", "c"] 2).2 = true :=
  have h := C4_country_cap ["a", "b", "c"] 2 (by norm_num)
  ⟨h.1.trans rfl, h.2.1, h.2.2⟩

/-- C5: whenever at least one boundary year (2019, 2024) is absent from the
filtered subset, P3 yields the dedicated `unavailableYears` status — never an
`ok` result (so never an empty-but-ok chart). -/
theorem C5_p3_unavailable (dff : List Row) (n : Nat)
    (h : 2019 ∉ years_available dff ∨ 2024 ∉ years_available dff) :
    p3 dff n = P3Result.unavailableYears ∧
      ∀ i d, p3 dff n ≠ P3Result.ok i d := by
  have hc : ¬(2019 ∈ years_available dff ∧ 2024 ∈ years_available dff) := by
    tauto
  unfold p3
  rw [if_neg hc]
  exact ⟨rfl, fun i d hh => P3Result.noConfusion hh⟩

/-- Witness for C5: a subset holding only year 2019. -/
theorem C5_p3_unavailable_witness :
    p3 [mkRow "A" 2019 (some 5) none] 15 = P3Result.unavailableYears :=
  (C5_p3_unavailable [mkRow "A" 2019 (some 5) none] 15 (Or.inr (by decide))).1

/-- C6: P3 pairs exactly the countries present in BOTH boundary years (inner
join), silently drops unmatched countries, and computes
`change = value(2024) − value(2019)`; on the two worked examples of the spec
it yields only A with change 1.0, resp. increase list [Finland, +0.1] and
decrease list [Chad, −0.1] at `change_n = 1`. -/
theorem C6_p3_join :
    (∀ (dff : List Row) (c : String),
        c ∈ (change_df dff).map ChangeRow.country ↔
          (c ∈ (df_2019 dff).map Prod.fst ∧ c ∈ (df_2024 dff).map Prod.fst)) ∧
    (∀ (dff : List Row) (e : ChangeRow), e ∈ change_df dff →
        e.change = osub e.v2024 e.v2019) ∧
    change_df exAB = [⟨"A", some 3, some 4, some 1⟩] ∧
    p3 exFC 1 =
      P3Result.ok [⟨"Finland", some (78/10), some (79/10), some (1/10)⟩]
        [⟨"Chad", some (35/10), some (34/10), some (-(1/10))⟩] := by
  refine ⟨?_, ?_, ?_, ?_⟩
  · intro dff c
    constructor
    · intro h
      obtain ⟨e, he, rfl⟩ := List.mem_map.mp h
      obtain ⟨h1, h2, _⟩ := mem_change_df.mp he
      exact ⟨List.mem_map.mpr ⟨_, h1, rfl⟩, List.mem_map.mpr ⟨_, h2, rfl⟩⟩
    · rintro ⟨h1, h2⟩
      obtain ⟨p, hp, rfl⟩ := List.mem_map.mp h1
      obtain ⟨q, hq, hqc⟩ := List.mem_map.mp h2
      refine List.mem_map.mpr ⟨⟨p.1, p.2, q.2, osub q.2 p.2⟩, ?_, rfl⟩
      apply mem_change_df.mpr
      refine ⟨hp, ?_, rfl⟩
      rw [← hqc]
      exact hq
  · intro dff e he
    exact (mem_change_df.mp he).2.2
  · norm_num +decide [change_df, df_2019, df_2024, mergeOnCountry, osub, exAB,
      mkRow]
  · norm_num +decide [p3, years_available, uniq, change_df, df_2019, df_2024,
      mergeOnCountry, osub, inc, dec, sortByDesc, sortByAsc, List.insertionSort,
      List.orderedInsert, descOpt, ascOpt, exFC, mkRow]

/-- C8: a factor with fewer than 3 paired non-missing country-level
observations is excluded entirely from P5's correlation output — whatever
coefficient the correlation function would compute. -/
theorem C8_corr_floor (corrFn : List (ℚ × ℚ) → Option ℚ) (cf : List CRow)
    (f : Factor) (h : (pairedObs cf f).length < 3) :
    f ∉ (corr_df corrFn cf).map Prod.fst := by
  intro hmem
  have hperm : (corr_df corrFn cf).Perm ((corr_rows corrFn cf).filterMap
      fun p => p.2.map fun v => (p.1, v)) := List.perm_insertionSort _ _
  rw [(hperm.map Prod.fst).mem_iff] at hmem
  obtain ⟨⟨f1, v⟩, hv, hf1⟩ := List.mem_map.mp hmem
  obtain ⟨p, hp, hpv⟩ := List.mem_filterMap.mp hv
  rw [Option.map_eq_some'] at hpv
  obtain ⟨a, ha, heq⟩ := hpv
  obtain ⟨f0, _, rfl⟩ := List.mem_map.mp hp
  have hf0 : f0 = f := by
    have h01 : f0 = f1 := congrArg Prod.fst heq
    simp only at hf1
    exact h01.trans hf1
  have h3 : (pairedObs cf f0).length < 3 := by rw [hf0]; exact h
  have ha' : (if (pairedObs cf f0).length < 3 then none
      else corrFn (pairedObs cf f0)) = some a := ha
  rw [if_pos h3] at ha'
  exact Option.noConfusion ha'

/-- Witness for C8: in `exCf` every factor has at most 2 paired observations,
and GDP indeed never shows up in the (here constantly-1) correlation
output. -/
theorem C8_corr_floor_witness :
    (pairedObs exCf Factor.gdp).length < 3 ∧
      Factor.gdp ∉ (corr_df (fun _ => some 1) exCf).map Prod.fst :=
  ⟨by decide, C8_corr_floor (fun _ => some 1) exCf Factor.gdp (by decide)⟩

/-- Every country row of the shared tab-4 table has a non-missing mean life
evaluation: a country whose mean is missing is filtered out. -/
theorem not_mem_country_full {dff : List Row} {c : String}
    (h : optMean ((dff.filter fun r =>
      decide (r.country = c)).map Row.lifeEval) = none) :
    ∀ r ∈ country_full dff, r.country ≠ c := by
  intro r hr hc
  obtain ⟨hr1, hr2⟩ := List.mem_filter.mp hr
  obtain ⟨k, hk, rfl⟩ := List.mem_map.mp hr1
  have hkc : k = c := hc
  subst hkc
  have hle : (countryMeans dff k).life_eval = optMean ((dff.filter fun r =>
      decide (r.country = k)).map Row.lifeEval) := rfl
  rw [hle, h] at hr2
  exact Bool.noConfusion hr2

/-- C10: P4, P5 and P6 all read the shared `country_full` table, from which
every country with a missing mean life evaluation has been removed before any
factor handling — such a country is absent from all three analyses (and
removing it again changes nothing), and when the removal empties the table,
tab 4 reports the single `noData` status. -/
theorem C10_shared_table (dff : List Row) (c : String)
    (corrFn : List (ℚ × ℚ) → Option ℚ)
    (h : optMean ((dff.filter fun r =>
      decide (r.country = c)).map Row.lifeEval) = none) :
    c ∉ (country_full dff).map CRow.country ∧
    c ∉ (p4_rows (country_full dff)).map CRow.country ∧
    c ∉ (fig6_data (country_full dff)).map (fun t => t.1) ∧
    ((country_full dff).filter fun r => decide (¬ r.country = c)) =
      country_full dff ∧
    (country_full dff = [] → tab4 required_cols dff corrFn = Tab4Result.noData) := by
  have key := not_mem_country_full h
  refine ⟨?_, ?_, ?_, ?_, ?_⟩
  · intro hm
    obtain ⟨r, hr, hrc⟩ := List.mem_map.mp hm
    exact key r hr hrc
  · intro hm
    obtain ⟨r, hr, hrc⟩ := List.mem_map.mp hm
    exact key r (List.mem_filter.mp hr).1 hrc
  · intro hm
    obtain ⟨t, ht, htc⟩ := List.mem_map.mp hm
    have ht2 := (List.mem_filter.mp ht).1
    obtain ⟨f, _, hmap⟩ := List.mem_flatMap.mp ht2
    obtain ⟨r, hr, hrt⟩ := List.mem_map.mp hmap
    apply key r hr
    rw [← htc, ← hrt]
  · apply List.filter_eq_self.mpr
    intro r hr
    simpa using key r hr
  · intro hcf
    have hmiss : (required_cols.filter fun c0 => decide (¬ c0 ∈ required_cols)) = [] := by
      apply List.filter_eq_nil_iff.mpr
      intro a ha
      simp [ha]
    simp [tab4, hmiss, hcf]

/-- Witness for C10: country A has GDP data but no life-evaluation data, and
is absent from the shared country table. -/
theorem C10_shared_table_witness :
    optMean ((exLifeMissing.filter fun r =>
        decide (r.country = "A")).map Row.lifeEval) = none ∧
      "A" ∉ (country_full exLifeMissing).map CRow.country :=
  ⟨by decide, (C10_shared_table exLifeMissing "A" (fun _ => none) (by decide)).1⟩

/-- Witness for C6: country A (present in both boundary years of `exAB`) is
paired, and its change row satisfies the change formula. -/
theorem C6_p3_join_witness :
    ("A" ∈ (change_df exAB).map ChangeRow.country) ∧
      (⟨"A", some 3, some 4, some 1⟩ : ChangeRow).change =
        osub (some 4) (some 3) := by
  constructor
  · refine (C6_p3_join.1 exAB "A").mpr ⟨?_, ?_⟩
    · norm_num +decide [df_2019, exAB, mkRow]
    · norm_num +decide [df_2024, exAB, mkRow]
  · refine C6_p3_join.2.1 exAB ⟨"A", some 3, some 4, some 1⟩ ?_
    norm_num +decide [change_df, df_2019, df_2024, mergeOnCountry, osub, exAB,
      mkRow]

/-- C2 counterexample: with allow-list ["A"], the spec's Working Subset keeps
only country A's rows, but the script's `df_f` keeps both countries and P2's
`country_avg` (read from `df_f`) contains country B — an analysis reading
rows of a country outside the allow-list. -/
theorem C2_cex :
    workingSubsetSpec exTwoCountries 2019 2024 ["A"] =
        [mkRow "A" 2019 (some 5) none] ∧
    df_f exTwoCountries 2019 2024 = exTwoCountries ∧
    "B" ∈ (country_avg (df_f exTwoCountries 2019 2024)).map Prod.fst := by
  refine ⟨?_, ?_, ?_⟩
  · norm_num +decide [workingSubsetSpec, exTwoCountries, mkRow]
  · norm_num +decide [df_f, exTwoCountries, mkRow]
  · exact mem_map_fst_country_avg.mpr
      (by norm_num +decide [df_f, exTwoCountries, mkRow])

/-- C2 as amended: the allow-list reaches only P1's per-country overlay
series, whose rows all carry allow-listed countries; every analysis reads the
year-only-filtered `df_f`, and in particular P2 aggregates every country of
the year range whatever the selection. -/
theorem C2_amended :
    (∀ (dff : List Row) (sel : List String) (t : Int × String × Option ℚ),
        t ∈ country_series dff sel → t.2.1 ∈ sel) ∧
    (∀ (dff : List Row) (c : String),
        c ∈ (country_avg dff).map Prod.fst ↔ c ∈ dff.map Row.country) := by
  constructor
  · intro dff sel t ht
    obtain ⟨r, hr, rfl⟩ := List.mem_map.mp ht
    have hsel := (List.mem_filter.mp hr).2
    simpa using hsel
  · intro dff c
    exact mem_map_fst_country_avg

/-- Witness for C2's amended statement at concrete inputs. -/
theorem C2_amended_witness :
    ("A" ∈ (["A"] : List String)) ∧
      "B" ∈ (country_avg exTwoCountries).map Prod.fst := by
  constructor
  · exact C2_amended.1 exTwoCountries ["A"] (2019, "A", some 5)
      (by norm_num +decide [country_series, exTwoCountries, mkRow])
  · exact (C2_amended.2 exTwoCountries "B").mpr
      (by norm_num +decide [exTwoCountries, mkRow])

/-- Ranking order is sorted descending by mean with missing means last. -/
theorem sorted_country_avg (dff : List Row) :
    List.Sorted (fun a b : String × Option ℚ => descOpt a.2 b.2)
      (country_avg dff) := by
  haveI : IsTotal (String × Option ℚ) (fun a b => descOpt a.2 b.2) :=
    ⟨fun a b => descOpt_total a.2 b.2⟩
  haveI : IsTrans (String × Option ℚ) (fun a b => descOpt a.2 b.2) :=
    ⟨fun a b c h1 h2 => descOpt_trans a.2 b.2 c.2 h1 h2⟩
  exact List.sorted_insertionSort _ _

/-- C7 counterexample: two countries with the same mean, original row order
B before A. The tie in `country_avg` comes out A before B (the groupby
pre-sorts countries alphabetically), so ties are NOT broken by original row
order. -/
theorem C7_cex :
    exTie.map Row.country = ["B", "A"] ∧
    country_avg exTie = [("A", some 5), ("B", some 5)] ∧
    (country_avg exTie).map Prod.fst ≠ exTie.map Row.country := by
  refine ⟨by norm_num [exTie, mkRow], ?_, ?_⟩
  · norm_num +decide [country_avg, sortByDesc, groupMean, sortedKeys, uniq,
      optMean, somes, descOpt, List.insertionSort, List.orderedInsert, exTie,
      mkRow]
  · norm_num +decide [country_avg, sortByDesc, groupMean, sortedKeys, uniq,
      optMean, somes, descOpt, List.insertionSort, List.orderedInsert, exTie,
      mkRow]

/-- C7 as amended: P2's output is sorted descending by mean (deterministically
— it is a pure function of the subset), with ties following the
alphabetical country order the groupby produced rather than original row
order; top and bottom lists have exactly `min N (number of distinct
countries)` rows each, and both are emitted in full without deduplication
even when they overlap. -/
theorem C7_amended :
    (∀ dff : List Row,
        List.Sorted (fun a b : String × Option ℚ => descOpt a.2 b.2)
          (country_avg dff)) ∧
    (∀ dff : List Row,
        (country_avg dff).length = (uniq (dff.map Row.country)).length) ∧
    (∀ (dff : List Row) (n : Nat),
        (top_countries dff n).length = min n (country_avg dff).length ∧
        (bottom_countries dff n).length = min n (country_avg dff).length) ∧
    (∀ (dff : List Row) (n : Nat),
        (plot_rank dff n).length =
          (top_countries dff n).length + (bottom_countries dff n).length) ∧
    (country_avg exTie2).map Prod.fst = ["C", "D"] := by
  refine ⟨sorted_country_avg, ?_, ?_, ?_, ?_⟩
  · intro dff
    rw [(country_avg_perm dff).length_eq]
    simp [groupMean, length_sortedKeys]
  · intro dff n
    constructor
    · rw [top_countries, List.length_take]
    · rw [bottom_countries, List.length_drop]
      omega
  · intro dff n
    simp [plot_rank]
  · norm_num +decide [country_avg, sortByDesc, groupMean, sortedKeys, uniq,
      optMean, somes, descOpt, List.insertionSort, List.orderedInsert, exTie2,
      mkRow]

/-- C9 counterexample: country A's only life-evaluation cell is missing, yet
A is kept in `country_avg` with a missing mean (and even surfaces in the
bottom-1 ranking), and year 2019 is kept in P9's long table with a missing
GDP mean — the groups are reported as missing, not dropped. -/
theorem C9_cex :
    country_avg exAllMissing = [("B", some 5), ("A", none)] ∧
    bottom_countries exAllMissing 1 = [("A", none)] ∧
    (2019, Factor.gdp, none) ∈ long_yearly exAllMissing := by
  refine ⟨?_, ?_, ?_⟩
  · norm_num +decide [country_avg, sortByDesc, groupMean, sortedKeys, uniq,
      optMean, somes, descOpt, List.insertionSort, List.orderedInsert,
      exAllMissing, mkRow]
  · norm_num +decide [bottom_countries, country_avg, sortByDesc, groupMean,
      sortedKeys, uniq, optMean, somes, descOpt, List.insertionSort,
      List.orderedInsert, exAllMissing, mkRow]
  · norm_num +decide [long_yearly, factors_cols, sortedKeys, uniq, yearly_mean,
      optMean, somes, exAllMissing, mkRow, Row.factorVal]

/-- C9 as amended: every grouped mean skips missing cells (they are not
treated as zero), but a group with zero non-missing values is kept in P2's
`country_avg` and in P9's yearly table with a missing mean — dropped only by
the tables that apply an explicit dropna afterwards. -/
theorem C9_amended :
    (∀ xs : List (Option ℚ), optMean (none :: xs) = optMean xs) ∧
    optMean [some 5, none] = some 5 ∧
    (∀ (dff : List Row) (c : String) (v : Option ℚ), (c, v) ∈ country_avg dff →
        v = optMean ((dff.filter fun r =>
          decide (r.country = c)).map Row.lifeEval)) ∧
    (∀ (dff : List Row) (c : String),
        c ∈ (country_avg dff).map Prod.fst ↔ c ∈ dff.map Row.country) ∧
    (∀ (dff : List Row) (y : Int) (f : Factor) (v : Option ℚ),
        (y, f, v) ∈ long_yearly dff → v = yearly_mean dff f y) := by
  refine ⟨fun xs => rfl, ?_, ?_, ?_, ?_⟩
  · norm_num [optMean, somes]
  · intro dff c v h
    exact snd_of_mem_country_avg h
  · intro dff c
    exact mem_map_fst_country_avg
  · intro dff y f v h
    obtain ⟨f0, _, hmap⟩ := List.mem_flatMap.mp h
    obtain ⟨y0, _, heq⟩ := List.mem_map.mp hmap
    have hy : y0 = y := congrArg Prod.fst heq
    have hf : f0 = f := congrArg (fun p => p.2.1) heq
    have hv : yearly_mean dff f0 y0 = v := congrArg (fun p => p.2.2) heq
    rw [← hv, hf, hy]

/-- Witness for C9's amended statement at concrete inputs. -/
theorem C9_amended_witness :
    (some (5 : ℚ) = optMean ((exAllMissing.filter fun r =>
        decide (r.country = "B")).map Row.lifeEval)) ∧
      ("B" ∈ exAllMissing.map Row.country) ∧
      (none = yearly_mean exAllMissing Factor.gdp 2019) := by
  refine ⟨?_, ?_, ?_⟩
  · exact C9_amended.2.2.1 exAllMissing "B" (some 5)
      (by norm_num +decide [country_avg, sortByDesc, groupMean, sortedKeys,
        uniq, optMean, somes, descOpt, List.insertionSort, List.orderedInsert,
        exAllMissing, mkRow])
  · exact (C9_amended.2.2.2.1 exAllMissing "B").mp
      (mem_map_fst_country_avg.mpr (by norm_num +decide [exAllMissing, mkRow]))
  · exact C9_amended.2.2.2.2 exAllMissing 2019 Factor.gdp none
      (by norm_num +decide [long_yearly, factors_cols, sortedKeys, uniq,
        yearly_mean, optMean, somes, exAllMissing, mkRow, Row.factorVal])

/-- C1 counterexample: on a dataset without year 2024, P3's boundary-year
check fires and its `st.stop()` terminates the run — tabs 4, 5 and 6 (P4–P9
and the map) never run, contradicting the claim that every other analysis
still produces its result. -/
theorem C1_cex :
    (runScript exOnly2019 2019 2019 [] 15 15 8 fun _ => none).p3 =
        some P3Result.unavailableYears ∧
    (runScript exOnly2019 2019 2019 [] 15 15 8 fun _ => none).t4 = none ∧
    (runScript exOnly2019 2019 2019 [] 15 15 8 fun _ => none).t5 = none ∧
    (runScript exOnly2019 2019 2019 [] 15 15 8 fun _ => none).t6 = none := by
  have h3 : p3 (df_f exOnly2019.rows 2019 2019) 15 = P3Result.unavailableYears := by
    norm_num +decide [p3, years_available, uniq, df_f, exOnly2019, mkRow]
  refine ⟨?_, ?_, ?_, ?_⟩ <;> simp [runScript, h3, P3Result.stops]

/-- C1 as amended: P1–P3 always run; but once P3 reaches an `st.stop()`, tabs
4–6 are never run, and once tab 4's missing-columns or no-data check reaches
its `st.stop()`, tabs 5 and 6 are never run. Only the column checks of P8 and
P9 recover locally: inside tab 5 (taken on its own) a missing life-evaluation
column makes P8 report its missing-columns status while P9 still produces its
table. -/
theorem C1_amended :
    (∀ (ds : Dataset) (ymin ymax : Int) (sel : List String) (tn cn mc : Nat)
        (corrFn : List (ℚ × ℚ) → Option ℚ),
        (p3 (df_f ds.rows ymin ymax) cn).stops = true →
          (runScript ds ymin ymax sel tn cn mc corrFn).t4 = none ∧
          (runScript ds ymin ymax sel tn cn mc corrFn).t5 = none ∧
          (runScript ds ymin ymax sel tn cn mc corrFn).t6 = none) ∧
    (∀ (ds : Dataset) (ymin ymax : Int) (sel : List String) (tn cn mc : Nat)
        (corrFn : List (ℚ × ℚ) → Option ℚ),
        (tab4 ds.cols (df_f ds.rows ymin ymax) corrFn).stops = true →
          (runScript ds ymin ymax sel tn cn mc corrFn).t5 = none ∧
          (runScript ds ymin ymax sel tn cn mc corrFn).t6 = none) ∧
    (∀ (ds : Dataset) (ymin ymax : Int) (sel : List String) (tn cn mc : Nat)
        (corrFn : List (ℚ × ℚ) → Option ℚ),
        (runScript ds ymin ymax sel tn cn mc corrFn).p1.isSome = true ∧
        (runScript ds ymin ymax sel tn cn mc corrFn).p2.isSome = true ∧
        (runScript ds ymin ymax sel tn cn mc corrFn).p3.isSome = true) ∧
    (∀ (cols : List String) (dff : List Row),
        "Life evaluation (3-year average)" ∉ cols → (∀ g ∈ factors, g ∈ cols) →
          (∃ m, m ≠ [] ∧ (tab5 cols dff).p8 = P8Result.missingCols m) ∧
          (tab5 cols dff).p9 = P9Result.ok (long_yearly dff)) := by
  refine ⟨?_, ?_, ?_, ?_⟩
  · intro ds ymin ymax sel tn cn mc corrFn h
    refine ⟨?_, ?_, ?_⟩ <;> simp [runScript, h]
  · intro ds ymin ymax sel tn cn mc corrFn h
    refine ⟨?_, ?_⟩ <;>
      · simp only [runScript]
        split
        · simp
        · simp [h]
  · intro ds ymin ymax sel tn cn mc corrFn
    refine ⟨?_, ?_, ?_⟩ <;>
      · simp only [runScript]
        split
        · simp
        · split <;> simp
  · intro cols dff hnot hall
    have hm : "Life evaluation (3-year average)" ∈
        needed.filter fun c => decide (¬ c ∈ cols) := by
      refine List.mem_filter.mpr ⟨?_, by simpa using hnot⟩
      simp [needed, required_cols]
    have hne : (needed.filter fun c => decide (¬ c ∈ cols)) ≠ [] := by
      intro h0
      rw [h0] at hm
      exact List.not_mem_nil _ hm
    have hempty : ((needed.filter fun c => decide (¬ c ∈ cols)).isEmpty) = false := by
      cases he : (needed.filter fun c => decide (¬ c ∈ cols)).isEmpty
      · rfl
      · exact absurd (List.isEmpty_iff.mp he) hne
    constructor
    · refine ⟨needed.filter fun c => decide (¬ c ∈ cols), hne, ?_⟩
      show p8 cols dff = P8Result.missingCols (needed.filter fun c =>
        decide (¬ c ∈ cols))
      simp only [p8]
      rw [if_neg (by simpa [List.isEmpty_iff] using hne)]
    · show p9 cols dff = P9Result.ok (long_yearly dff)
      have hf : (factors.filter fun c => decide (¬ c ∈ cols)) = [] :=
        List.filter_eq_nil_iff.mpr (by intro a ha; simp [hall a ha])
      simp only [p9]
      rw [if_pos (by rw [hf]; rfl)]

/-- Witness for C1's amended statement: a run whose P3 stops (year 2024
absent) leaves tab 4 unrun; a run whose tab 4 stops (required columns absent
from the file, P3 fine) leaves tab 5 unrun; P1 always has a result; and with
every factor column present but the life-evaluation column absent, P9 still
yields its table inside tab 5. -/
theorem C1_amended_witness :
    ((runScript exOnly2019 2018 2018 [] 5 5 3 fun _ => none).t4 = none) ∧
      ((runScript exMissingCols 2019 2024 [] 5 5 3 fun _ => none).t5 = none) ∧
      ((runScript exOnly2019 2019 2019 [] 5 5 3 fun _ => none).p1.isSome = true) ∧
      ((tab5 factors []).p9 = P9Result.ok (long_yearly [])) := by
  refine ⟨?_, ?_, ?_, ?_⟩
  · exact (C1_amended.1 exOnly2019 2018 2018 [] 5 5 3 (fun _ => none)
      (by decide)).1
  · exact (C1_amended.2.1 exMissingCols 2019 2024 [] 5 5 3 (fun _ => none)
      (by decide)).1
  · exact (C1_amended.2.2.1 exOnly2019 2019 2019 [] 5 5 3 (fun _ => none)).1
  · exact (C1_amended.2.2.2 factors [] (by decide) (fun g hg => hg)).2

end HappinessApp
